import Mathlib

/-!
Shallow embedding of the `fixed-map` crate.

The `Key` derive macro (`fixed-map-derive/src/lib.rs`) generates, for an enum
key type, a storage struct with one field per variant (an `Option<V>` slot for
a unit variant, a nested storage for a single-payload variant), the `Storage`
trait implementation (`insert` / `get` / `get_mut` / `remove` / `clear` /
`iter` / `iter_mut`), derived `Clone` / `PartialEq` / `Default`, and the
`Iter` / `IterMut` state machines.  The `Map` facade (`src/map.rs`) wraps one
storage instance and delegates.

We embed the macro's output for the representative key types used throughout
the crate's own documentation and tests:

  enum Part { One, Two }            -- a unit-only key type
  enum CKey { Simple, Composite(Part) }  -- one unit + one payload variant

Rust methods taking `&mut self` are embedded in state-passing style, returning
the Rust result together with the updated receiver.  Raw pointers (`*const V`,
`*mut V`) into slots are embedded as the pointed-to values.
-/

namespace FixedMap

variable {V : Type}

/-- The payload key enum: `enum Part { One, Two }`. -/
inductive Part where
  | One
  | Two
deriving DecidableEq

/-- The composite key enum: `enum CKey { Simple, Composite(Part) }`. -/
inductive CKey where
  | Simple
  | Composite (p : Part)
deriving DecidableEq

/-- Storage generated for `Part`: one `Option<V>` slot per unit variant,
in declaration order (`f0` for `One`, `f1` for `Two`). -/
structure PartStorage (V : Type) where
  f0 : Option V
  f1 : Option V

/-- Storage generated for `CKey`: `f0 : Option<V>` for the unit variant
`Simple`, `f1` a nested `PartStorage` for the payload variant `Composite`. -/
structure CStorage (V : Type) where
  f0 : Option V
  f1 : PartStorage V

/-- `Default for Storage<V>`: every slot `Default::default()` (= `None`),
every nested storage default. -/
def PartStorage.default : PartStorage V :=
  { f0 := none, f1 := none }

/-- `Default for Storage<V>` of the composite storage. -/
def CStorage.default : CStorage V :=
  { f0 := none, f1 := PartStorage.default }

/-- `insert`: match on the key; a unit arm is
`::std::mem::replace(&mut self.fi, Some(value))`.  Returns the replaced
content together with the updated storage. -/
def PartStorage.insert (s : PartStorage V) (key : Part) (value : V) :
    Option V × PartStorage V :=
  match key with
  | Part.One => (s.f0, { s with f0 := some value })
  | Part.Two => (s.f1, { s with f1 := some value })

/-- `get`: match on the key; a unit arm is `self.fi.as_ref()`. -/
def PartStorage.get (s : PartStorage V) (key : Part) : Option V :=
  match key with
  | Part.One => s.f0
  | Part.Two => s.f1

/-- `get_mut`: match on the key; a unit arm is `self.fi.as_mut()`. -/
def PartStorage.get_mut (s : PartStorage V) (key : Part) : Option V :=
  match key with
  | Part.One => s.f0
  | Part.Two => s.f1

/-- `remove`: a unit arm is `::std::mem::replace(&mut self.fi, None)`. -/
def PartStorage.remove (s : PartStorage V) (key : Part) :
    Option V × PartStorage V :=
  match key with
  | Part.One => (s.f0, { s with f0 := none })
  | Part.Two => (s.f1, { s with f1 := none })

/-- `clear`: `self.fi = None` for every unit field. -/
def PartStorage.clear (_s : PartStorage V) : PartStorage V :=
  { f0 := none, f1 := none }

/-- Generated `PartialEq for Storage<V>`: for every field in declaration
order, `if self.fi != other.fi { return false; }`, then `true`. -/
def PartStorage.eq [DecidableEq V] (a b : PartStorage V) : Bool :=
  if a.f0 ≠ b.f0 then false
  else if a.f1 ≠ b.f1 then false
  else true

/-- Iterator generated for `PartStorage`: a step cursor plus, per unit
variant, the `Option<*const V>` snapshot. -/
structure PartIter (V : Type) where
  step : Nat
  f0 : Option V
  f1 : Option V

/-- Mutable iterator generated for `PartStorage` (`Option<*mut V>`
snapshots); same shape as `PartIter`. -/
structure PartIterMut (V : Type) where
  step : Nat
  f0 : Option V
  f1 : Option V

/-- `iter`: `step: 0` and, per unit field,
`fi: self.fi.as_ref().map(|v| v as *const V)` — a pointer snapshot of the
current content, not a move. -/
def PartStorage.iter (s : PartStorage V) : PartIter V :=
  { step := 0, f0 := s.f0, f1 := s.f1 }

/-- `iter_mut`: `step: 0` and `fi: self.fi.as_mut().map(|v| v as *mut V)`. -/
def PartStorage.iter_mut (s : PartStorage V) : PartIterMut V :=
  { step := 0, f0 := s.f0, f1 := s.f1 }

/-- `Iterator::next` for the generated `Iter`: loop matching on `self.step`;
a unit arm takes the snapshot (`self.fi.take()`) and returns the
reconstructed key without advancing, or advances `self.step` and loops;
any step at or past the variant count returns `None`. -/
def PartIter.next : PartIter V → Option (Part × V) × PartIter V
  | ⟨0, f0, f1⟩ =>
    match f0 with
    | some v => (some (Part.One, v), ⟨0, none, f1⟩)
    | none => PartIter.next ⟨1, none, f1⟩
  | ⟨1, f0, f1⟩ =>
    match f1 with
    | some v => (some (Part.Two, v), ⟨1, f0, none⟩)
    | none => PartIter.next ⟨2, f0, none⟩
  | ⟨n + 2, f0, f1⟩ => (none, ⟨n + 2, f0, f1⟩)
termination_by it => 2 - it.step

/-- `Iterator::next` for the generated `IterMut`: the macro emits the same
arms as for `Iter` (`iter_mut_next` aliases `iter_next`). -/
def PartIterMut.next : PartIterMut V → Option (Part × V) × PartIterMut V
  | ⟨0, f0, f1⟩ =>
    match f0 with
    | some v => (some (Part.One, v), ⟨0, none, f1⟩)
    | none => PartIterMut.next ⟨1, none, f1⟩
  | ⟨1, f0, f1⟩ =>
    match f1 with
    | some v => (some (Part.Two, v), ⟨1, f0, none⟩)
    | none => PartIterMut.next ⟨2, f0, none⟩
  | ⟨n + 2, f0, f1⟩ => (none, ⟨n + 2, f0, f1⟩)
termination_by it => 2 - it.step

/-- `insert` for the composite storage: the unit arm swaps the slot, the
payload arm `CKey::Composite(v)` delegates `self.f1.insert(v, value)`. -/
def CStorage.insert (s : CStorage V) (key : CKey) (value : V) :
    Option V × CStorage V :=
  match key with
  | CKey.Simple => (s.f0, { s with f0 := some value })
  | CKey.Composite v =>
    match s.f1.insert v value with
    | (old, f1x) => (old, { s with f1 := f1x })

/-- `get` for the composite storage: the payload arm delegates
`self.f1.get(v)`. -/
def CStorage.get (s : CStorage V) (key : CKey) : Option V :=
  match key with
  | CKey.Simple => s.f0
  | CKey.Composite v => s.f1.get v

/-- `get_mut` for the composite storage: the payload arm delegates
`self.f1.get_mut(v)`. -/
def CStorage.get_mut (s : CStorage V) (key : CKey) : Option V :=
  match key with
  | CKey.Simple => s.f0
  | CKey.Composite v => s.f1.get_mut v

/-- `remove` for the composite storage: the payload arm delegates
`self.f1.remove(v)`. -/
def CStorage.remove (s : CStorage V) (key : CKey) :
    Option V × CStorage V :=
  match key with
  | CKey.Simple => (s.f0, { s with f0 := none })
  | CKey.Composite v =>
    match s.f1.remove v with
    | (old, f1x) => (old, { s with f1 := f1x })

/-- `clear` for the composite storage: `self.f0 = None;
self.f1.clear()` — no slot skipped, nested storage cleared recursively. -/
def CStorage.clear (s : CStorage V) : CStorage V :=
  { f0 := none, f1 := s.f1.clear }

/-- Generated `PartialEq` for the composite storage: field-by-field in
declaration order, the nested field compared by the nested storage's own
equality, returning `false` at the first mismatch. -/
def CStorage.eq [DecidableEq V] (a b : CStorage V) : Bool :=
  if a.f0 ≠ b.f0 then false
  else if ¬ (PartStorage.eq a.f1 b.f1 = true) then false
  else true

/-- Iterator generated for `CStorage`: a step cursor, the `Option<*const V>`
snapshot for the unit variant, and a nested `PartIter` for the payload
variant. -/
structure CIter (V : Type) where
  step : Nat
  f0 : Option V
  f1 : PartIter V

/-- Mutable iterator generated for `CStorage`. -/
structure CIterMut (V : Type) where
  step : Nat
  f0 : Option V
  f1 : PartIterMut V

/-- `iter` for the composite storage: `step: 0`, a pointer snapshot of the
unit slot, and `f1: self.f1.iter()` for the payload slot. -/
def CStorage.iter (s : CStorage V) : CIter V :=
  { step := 0, f0 := s.f0, f1 := s.f1.iter }

/-- `iter_mut` for the composite storage. -/
def CStorage.iter_mut (s : CStorage V) : CIterMut V :=
  { step := 0, f0 := s.f0, f1 := s.f1.iter_mut }

/-- `Iterator::next` for the composite `Iter`: the unit arm takes the
snapshot; the payload arm drives the nested iterator
(`if let Some((k, v)) = self.f1.next() { return Some((Composite(k), v)) }`)
and advances `step` only when the nested iterator is exhausted. -/
def CIter.next : CIter V → Option (CKey × V) × CIter V
  | ⟨0, f0, f1⟩ =>
    match f0 with
    | some v => (some (CKey.Simple, v), ⟨0, none, f1⟩)
    | none => CIter.next ⟨1, none, f1⟩
  | ⟨1, f0, f1⟩ =>
    match PartIter.next f1 with
    | (some (k, v), f1x) => (some (CKey.Composite k, v), ⟨1, f0, f1x⟩)
    | (none, f1x) => CIter.next ⟨2, f0, f1x⟩
  | ⟨n + 2, f0, f1⟩ => (none, ⟨n + 2, f0, f1⟩)
termination_by it => 2 - it.step

/-- `Iterator::next` for the composite `IterMut`: identical arms. -/
def CIterMut.next : CIterMut V → Option (CKey × V) × CIterMut V
  | ⟨0, f0, f1⟩ =>
    match f0 with
    | some v => (some (CKey.Simple, v), ⟨0, none, f1⟩)
    | none => CIterMut.next ⟨1, none, f1⟩
  | ⟨1, f0, f1⟩ =>
    match PartIterMut.next f1 with
    | (some (k, v), f1x) => (some (CKey.Composite k, v), ⟨1, f0, f1x⟩)
    | (none, f1x) => CIterMut.next ⟨2, f0, f1x⟩
  | ⟨n + 2, f0, f1⟩ => (none, ⟨n + 2, f0, f1⟩)
termination_by it => 2 - it.step

/-- Driving the composite iterator: repeatedly call `next`, collecting the
yielded pairs, stopping at `None` (fuel bounds the number of `next` calls;
for these two-variant storages any fuel ≥ 4 reaches exhaustion). -/
def CIter.collect : Nat → CIter V → List (CKey × V) × CIter V
  | 0, it => ([], it)
  | fuel + 1, it =>
    match CIter.next it with
    | (none, it2) => ([], it2)
    | (some x, it2) =>
      match CIter.collect fuel it2 with
      | (l, it3) => (x :: l, it3)

/-- The `Map` facade (`src/map.rs`): owns exactly one storage instance. -/
structure Map (V : Type) where
  storage : CStorage V

/-- `Map::new`: default (empty) storage. -/
def Map.new : Map V :=
  { storage := CStorage.default }

/-- `Map::get`: delegates to `self.storage.get(key)`. -/
def Map.get (m : Map V) (key : CKey) : Option V :=
  m.storage.get key

/-- `Map::get_mut`: delegates to `self.storage.get_mut(key)`. -/
def Map.get_mut (m : Map V) (key : CKey) : Option V :=
  m.storage.get_mut key

/-- `Map::insert`: delegates to `self.storage.insert(key, value)`. -/
def Map.insert (m : Map V) (key : CKey) (value : V) : Option V × Map V :=
  match m.storage.insert key value with
  | (old, s) => (old, { storage := s })

/-- `Map::remove`: delegates to `self.storage.remove(key)`. -/
def Map.remove (m : Map V) (key : CKey) : Option V × Map V :=
  match m.storage.remove key with
  | (old, s) => (old, { storage := s })

/-- `Map::clear`: delegates to `self.storage.clear()`. -/
def Map.clear (m : Map V) : Map V :=
  { storage := m.storage.clear }

/-- `Map::iter`: wraps `self.storage.iter()`; the facade's `next` only
dereferences the yielded pointer, which the embedding already represents by
its value. -/
def Map.iter (m : Map V) : CIter V :=
  m.storage.iter

/-- `Map::is_empty`: `self.iter().next().is_none()`. -/
def Map.is_empty (m : Map V) : Bool :=
  (CIter.next m.iter).1.isNone

/-- `Map::len`: `self.iter().count()` — the number of items the iterator
yields (fuel 8 exceeds the at most 4 `next` calls these storages take). -/
def Map.len (m : Map V) : Nat :=
  (CIter.collect 8 m.iter).1.length

/-- `PartialEq for Map`: `self.storage == other.storage`, the generated
storage equality. -/
def Map.eq [DecidableEq V] (a b : Map V) : Bool :=
  CStorage.eq a.storage b.storage

/-- `Index for Map`: `self.get(key).expect("no entry found for key")` — a
panic on an absent key, embedded as `Except.error` carrying the panic
message. -/
def Map.index (m : Map V) (key : CKey) : Except String V :=
  match m.get key with
  | some v => Except.ok v
  | none => Except.error "no entry found for key"

/-- Test-harness helper: insert a list of entries left to right. -/
def Map.insertList (m : Map V) : List (CKey × V) → Map V
  | [] => m
  | (k, v) :: rest => Map.insertList (Map.insert m k v).2 rest

/-- The Rust sequence `let it = m.iter(); drive it to exhaustion; m`:
constructing and consuming the iterator touches only the iterator state,
so the map the caller still holds is returned unchanged. -/
def Map.iterConsumeSeq (m : Map V) : List (CKey × V) × Map V :=
  ((CIter.collect 8 (Map.iter m)).1, m)

/-- The declaration-order sequence the iterator must produce for claim C4,
together with the six insertion orders of its three entries. -/
def c4Target (va vx vy : V) : List (CKey × V) :=
  [(CKey.Simple, va), (CKey.Composite Part.One, vx), (CKey.Composite Part.Two, vy)]

/-- All six insertion orders of the entries of `c4Target`. -/
def c4Orders (va vx vy : V) : List (List (CKey × V)) :=
  [[(CKey.Simple, va), (CKey.Composite Part.One, vx), (CKey.Composite Part.Two, vy)],
   [(CKey.Simple, va), (CKey.Composite Part.Two, vy), (CKey.Composite Part.One, vx)],
   [(CKey.Composite Part.One, vx), (CKey.Simple, va), (CKey.Composite Part.Two, vy)],
   [(CKey.Composite Part.One, vx), (CKey.Composite Part.Two, vy), (CKey.Simple, va)],
   [(CKey.Composite Part.Two, vy), (CKey.Simple, va), (CKey.Composite Part.One, vx)],
   [(CKey.Composite Part.Two, vy), (CKey.Composite Part.One, vx), (CKey.Simple, va)]]

/-- Claim C1: for every map state, key `k` (unit-variant and nested composite
keys alike) and value `v`, `insert(k, v)` then `get(k)` yields `Some(v)`;
`remove(k)` next returns `Some(v)`; a `get(k)` after that returns `None`. -/
theorem c1_round_trip (m : Map V) (k : CKey) (v : V) :
    Map.get (Map.insert m k v).2 k = some v ∧
    (Map.remove (Map.insert m k v).2 k).1 = some v ∧
    Map.get (Map.remove (Map.insert m k v).2 k).2 k = none := by
  obtain ⟨⟨f0, ⟨g0, g1⟩⟩⟩ := m
  cases k with
  | Simple =>
    simp [Map.get, Map.insert, Map.remove, CStorage.insert, CStorage.get,
      CStorage.remove]
  | Composite p =>
    cases p <;>
      simp [Map.get, Map.insert, Map.remove, CStorage.insert, CStorage.get,
        CStorage.remove, PartStorage.insert, PartStorage.get, PartStorage.remove]

/-- Claim C2: after `insert(k, v1)`, a second `insert(k, v2)` returns
`Some(v1)` (the swapped-out previous content) and `get(k)` then yields
`Some(v2)`. -/
theorem c2_overwrite (m : Map V) (k : CKey) (v1 v2 : V) :
    (Map.insert (Map.insert m k v1).2 k v2).1 = some v1 ∧
    Map.get (Map.insert (Map.insert m k v1).2 k v2).2 k = some v2 := by
  obtain ⟨⟨f0, ⟨g0, g1⟩⟩⟩ := m
  cases k with
  | Simple => simp [Map.get, Map.insert, CStorage.insert, CStorage.get]
  | Composite p =>
    cases p <;>
      simp [Map.get, Map.insert, CStorage.insert, CStorage.get,
        PartStorage.insert, PartStorage.get]

/-- Claim C3: for distinct keys `k1 ≠ k2` — on the unit-only key type `Part`
and on the composite key type alike, including `Composite(One)` versus
`Composite(Two)` — `insert(k1, v)` and `remove(k1)` leave `get(k2)`
unchanged. -/
theorem c3_slot_exclusivity (ps : PartStorage V) (p1 p2 : Part)
    (m : Map V) (k1 k2 : CKey) (v : V) (hp : p1 ≠ p2) (hk : k1 ≠ k2) :
    (PartStorage.get (ps.insert p1 v).2 p2 = ps.get p2 ∧
     PartStorage.get (ps.remove p1).2 p2 = ps.get p2) ∧
    (Map.get (Map.insert m k1 v).2 k2 = Map.get m k2 ∧
     Map.get (Map.remove m k1).2 k2 = Map.get m k2) := by
  obtain ⟨⟨f0, ⟨g0, g1⟩⟩⟩ := m
  constructor
  · cases p1 <;> cases p2 <;>
      simp_all [PartStorage.get, PartStorage.insert, PartStorage.remove]
  · cases k1 with
    | Simple =>
      cases k2 with
      | Simple => exact absurd rfl hk
      | Composite q =>
        cases q <;>
          simp [Map.get, Map.insert, Map.remove, CStorage.insert,
            CStorage.get, CStorage.remove, PartStorage.get]
    | Composite p =>
      cases k2 with
      | Simple =>
        cases p <;>
          simp [Map.get, Map.insert, Map.remove, CStorage.insert,
            CStorage.get, CStorage.remove, PartStorage.insert,
            PartStorage.remove]
      | Composite q =>
        cases p <;> cases q <;>
          simp_all [Map.get, Map.insert, Map.remove, CStorage.insert,
            CStorage.get, CStorage.remove, PartStorage.insert,
            PartStorage.get, PartStorage.remove]

/-- Claim C3 witness: a concrete instance with `Part::One ≠ Part::Two` and
`Simple ≠ Composite(One)`. -/
theorem c3_slot_exclusivity_witness :
    Map.get (Map.insert (Map.new : Map Nat) CKey.Simple 5).2
        (CKey.Composite Part.One) =
      Map.get (Map.new : Map Nat) (CKey.Composite Part.One) :=
  (c3_slot_exclusivity ⟨none, none⟩ Part.One Part.Two Map.new CKey.Simple
    (CKey.Composite Part.One) 5 (by decide) (by decide)).2.1

/-- Claim C4: for every map state — full, partially filled or empty —
iteration yields exactly the present entries in strict variant-declaration
order, the payload variant's entries in the nested storage's own order; in
particular, inserting `Simple`, `Composite(One)`, `Composite(Two)` into an
empty map in any of the six insertion orders, iteration yields the
declaration-order sequence `Simple, Composite(One), Composite(Two)` — never
the insertion order. -/
theorem c4_iteration_order (m : Map V) (va vx vy : V) (l : List (CKey × V))
    (h : l ∈ c4Orders va vx vy) :
    ((CIter.collect 8 (Map.iter m)).1 =
      (m.storage.f0.toList.map (fun v => (CKey.Simple, v))) ++
      (m.storage.f1.f0.toList.map (fun v => (CKey.Composite Part.One, v))) ++
      (m.storage.f1.f1.toList.map (fun v => (CKey.Composite Part.Two, v)))) ∧
    (CIter.collect 8 (Map.iter (Map.insertList Map.new l))).1 =
      c4Target va vx vy := by
  constructor
  · obtain ⟨⟨f0, ⟨g0, g1⟩⟩⟩ := m
    cases f0 <;> cases g0 <;> cases g1 <;>
      simp [Map.iter, CStorage.iter, PartStorage.iter, CIter.collect,
        CIter.next, PartIter.next]
  · simp only [c4Orders, List.mem_cons, List.not_mem_nil, or_false] at h
    rcases h with rfl | rfl | rfl | rfl | rfl | rfl <;>
      simp [c4Target, Map.insertList, Map.insert, Map.new, Map.iter,
        CStorage.default, PartStorage.default, CStorage.insert,
        PartStorage.insert, CStorage.iter, PartStorage.iter, CIter.collect,
        CIter.next, PartIter.next]

/-- Claim C4 witness: a partially-filled map (only `Composite(Two)` present)
iterates to exactly that entry, and one concrete insertion order (reverse
declaration order) over `V = Nat` discharges the membership hypothesis. -/
theorem c4_iteration_order_witness :
    (CIter.collect 8 (Map.iter (⟨⟨none, ⟨none, some 9⟩⟩⟩ : Map Nat))).1 =
      [(CKey.Composite Part.Two, 9)] := by
  have h := (c4_iteration_order (⟨⟨none, ⟨none, some 9⟩⟩⟩ : Map Nat) 1 2 3
    [(CKey.Composite Part.Two, 3), (CKey.Composite Part.One, 2),
     (CKey.Simple, 1)] (by simp [c4Orders])).1
  simpa using h

/-- Claim C5: after `clear()` on any map state, `get(k)` is `None` for every
key, `is_empty()` is `true`, `len()` is `0` (no slot, nested storage
included, is skipped), and `clear` is idempotent — on an already-empty map
it leaves the map empty. -/
theorem c5_clear (m : Map V) (k : CKey) :
    Map.get (Map.clear m) k = none ∧
    Map.is_empty (Map.clear m) = true ∧
    Map.len (Map.clear m) = 0 ∧
    Map.clear (Map.clear m) = Map.clear m ∧
    Map.clear (Map.new : Map V) = Map.new := by
  obtain ⟨⟨f0, ⟨g0, g1⟩⟩⟩ := m
  refine ⟨?_, ?_, ?_, ?_, ?_⟩
  · cases k with
    | Simple => simp [Map.get, Map.clear, CStorage.clear, CStorage.get]
    | Composite p =>
      cases p <;>
        simp [Map.get, Map.clear, CStorage.clear, PartStorage.clear,
          CStorage.get, PartStorage.get]
  · simp [Map.is_empty, Map.iter, Map.clear, CStorage.clear,
      PartStorage.clear, CStorage.iter, PartStorage.iter, CIter.next,
      PartIter.next]
  · simp [Map.len, Map.iter, Map.clear, CStorage.clear, PartStorage.clear,
      CStorage.iter, PartStorage.iter, CIter.collect, CIter.next,
      PartIter.next]
  · simp [Map.clear, CStorage.clear, PartStorage.clear]
  · simp [Map.clear, Map.new, CStorage.clear, CStorage.default,
      PartStorage.clear, PartStorage.default]

/-- Claim C6: once the step cursor of an iterator from `iter()` or
`iter_mut()` has reached the variant count, every further `next()` call
returns no item and leaves the iterator state unchanged. -/
theorem c6_iter_exhaustion_idempotent (it : CIter V) (itm : CIterMut V)
    (h : it.step = 2) (hm : itm.step = 2) :
    CIter.next it = (none, it) ∧ CIterMut.next itm = (none, itm) := by
  obtain ⟨s, f0, f1⟩ := it
  obtain ⟨t, h0, h1⟩ := itm
  simp only at h hm
  subst h
  subst hm
  constructor
  · simp [CIter.next]
  · simp [CIterMut.next]

/-- Claim C6 witness: a concrete exhausted iterator over `V = Nat`. -/
theorem c6_iter_exhaustion_idempotent_witness :
    CIter.next (⟨2, none, ⟨0, none, none⟩⟩ : CIter Nat) =
      (none, (⟨2, none, ⟨0, none, none⟩⟩ : CIter Nat)) :=
  (c6_iter_exhaustion_idempotent (⟨2, none, ⟨0, none, none⟩⟩ : CIter Nat)
    (⟨2, none, ⟨0, none, none⟩⟩ : CIterMut Nat) rfl rfl).1

/-- Claim C7: indexed access on an absent key is a fatal contract violation
with the diagnostic "no entry found for key", whereas `get_mut`, `insert` and
`remove` signal the absence with an empty optional result instead of
failing. -/
theorem c7_absent_key_handling (m : Map V) (k : CKey) (v : V)
    (h : Map.get m k = none) :
    Map.index m k = Except.error "no entry found for key" ∧
    Map.get_mut m k = none ∧
    (Map.insert m k v).1 = none ∧
    (Map.remove m k).1 = none := by
  obtain ⟨⟨f0, ⟨g0, g1⟩⟩⟩ := m
  cases k with
  | Simple =>
    simp_all [Map.get, Map.index, Map.get_mut, Map.insert, Map.remove,
      CStorage.get, CStorage.get_mut, CStorage.insert, CStorage.remove]
  | Composite p =>
    cases p <;>
      simp_all [Map.get, Map.index, Map.get_mut, Map.insert, Map.remove,
        CStorage.get, CStorage.get_mut, CStorage.insert, CStorage.remove,
        PartStorage.get, PartStorage.get_mut, PartStorage.insert,
        PartStorage.remove]

/-- Claim C7 witness: the empty map at the unit key. -/
theorem c7_absent_key_handling_witness :
    Map.index (Map.new : Map Nat) CKey.Simple =
      Except.error "no entry found for key" :=
  (c7_absent_key_handling (Map.new : Map Nat) CKey.Simple 0 rfl).1

/-- Claim C8: equality of two storages (and of the two maps wrapping them) is
the short-circuit element-wise conjunction over the slots in declaration
order, and holds exactly when every corresponding slot is equal. -/
theorem c8_storage_eq_elementwise (W : Type) [DecidableEq W] (a b : Map W) :
    (Map.eq a b = CStorage.eq a.storage b.storage) ∧
    (Map.eq a b =
      (decide (a.storage.f0 = b.storage.f0) &&
        (decide (a.storage.f1.f0 = b.storage.f1.f0) &&
          decide (a.storage.f1.f1 = b.storage.f1.f1)))) ∧
    (Map.eq a b = true ↔
      (a.storage.f0 = b.storage.f0 ∧ a.storage.f1.f0 = b.storage.f1.f0 ∧
        a.storage.f1.f1 = b.storage.f1.f1)) := by
  refine ⟨rfl, ?_, ?_⟩ <;>
    (by_cases h1 : a.storage.f0 = b.storage.f0 <;>
     by_cases h2 : a.storage.f1.f0 = b.storage.f1.f0 <;>
     by_cases h3 : a.storage.f1.f1 = b.storage.f1.f1 <;>
     simp_all [Map.eq, CStorage.eq, PartStorage.eq])

/-- Claim C8 witness: two concrete equal maps over `V = Nat`. -/
theorem c8_storage_eq_elementwise_witness :
    Map.eq (⟨⟨some 1, ⟨none, some 2⟩⟩⟩ : Map Nat) ⟨⟨some 1, ⟨none, some 2⟩⟩⟩ =
      true :=
  (c8_storage_eq_elementwise Nat ⟨⟨some 1, ⟨none, some 2⟩⟩⟩
    ⟨⟨some 1, ⟨none, some 2⟩⟩⟩).2.2.mpr ⟨rfl, rfl, rfl⟩

/-- Claim C9: constructing an iterator snapshots each unit slot's current
content without moving it out — the snapshot equals the slot's content, the
map observed through `get` is unchanged after the iterator is created and
fully consumed, and the consumed sequence holds exactly the map's present
entries. -/
theorem c9_iter_construction_frame (m : Map V) (k : CKey) :
    (Map.iter m).f0 = m.storage.f0 ∧
    (Map.iter m).f1.f0 = m.storage.f1.f0 ∧
    (Map.iter m).f1.f1 = m.storage.f1.f1 ∧
    Map.get (Map.iterConsumeSeq m).2 k = Map.get m k ∧
    (∀ v : V, (k, v) ∈ (Map.iterConsumeSeq m).1 ↔ Map.get m k = some v) := by
  obtain ⟨⟨f0, ⟨g0, g1⟩⟩⟩ := m
  refine ⟨rfl, rfl, rfl, rfl, ?_⟩
  intro v
  cases f0 <;> cases g0 <;> cases g1 <;> rcases k with _ | p <;>
    first
    | (cases p <;>
        simp [Map.iterConsumeSeq, Map.iter, Map.get, CStorage.iter,
          PartStorage.iter, CStorage.get, PartStorage.get, CIter.collect,
          CIter.next, PartIter.next, eq_comm])
    | simp [Map.iterConsumeSeq, Map.iter, Map.get, CStorage.iter,
        PartStorage.iter, CStorage.get, PartStorage.get, CIter.collect,
        CIter.next, PartIter.next, eq_comm]

/-- Claim C10: when `get(k)` is `None`, `remove(k)` returns `None` and leaves
the whole map state — every slot, nested storage included — unchanged. -/
theorem c10_remove_absent_noop (m : Map V) (k : CKey)
    (h : Map.get m k = none) :
    (Map.remove m k).1 = none ∧ (Map.remove m k).2 = m := by
  obtain ⟨⟨f0, ⟨g0, g1⟩⟩⟩ := m
  cases k with
  | Simple =>
    simp_all [Map.get, Map.remove, CStorage.get, CStorage.remove]
  | Composite p =>
    cases p <;>
      simp_all [Map.get, Map.remove, CStorage.get, CStorage.remove,
        PartStorage.get, PartStorage.remove]

/-- Claim C10 witness: removing the unit key from the empty map. -/
theorem c10_remove_absent_noop_witness :
    (Map.remove (Map.new : Map Nat) CKey.Simple).1 = none :=
  (c10_remove_absent_noop (Map.new : Map Nat) CKey.Simple rfl).1

end FixedMap
